import Mathlib

/-!
Verification development for the Synapse delivery-coordination agent.

Shallow embedding of the Python sources:
  * `src/tools/base.py` — tool contract (`BaseTool.validate_parameters`,
    `BaseTool.safe_execute`, `ToolResult`, `ToolStatus`);
  * `src/tools/registry.py` — `ToolRegistry`;
  * `src/agent/reasoning.py` — `ChainOfThoughtReasoner`;
  * `src/agent/coordinator.py` — the LangGraph orchestration engine
    (`SynapseCoordinator`), modelled as a small-step transition relation.

Modelling conventions: Python dicts become association lists (first-match
lookup, in-place update); JSON values become the inductive `JVal`; floats
become `ℚ`; wall-clock readings (`datetime.now()` and measured durations)
become explicit parameters; `async` calls to the LLM become nondeterministic
choices in the step relation; `json.loads` becomes an abstract parameter
`parse : String → Option JVal`.
-/

namespace Synapse

/-- JSON-like values (the payloads moved between tools and the engine). -/
inductive JVal where
  | null
  | bool (b : Bool)
  | num (q : ℚ)
  | str (s : String)
  | arr (xs : List JVal)
  | obj (fields : List (String × JVal))

/-- Python keyword-argument / dict payloads: string-keyed association lists. -/
def Kwargs := List (String × JVal)

/-- First-match lookup, the semantics of `kwargs[param]` / `dict.get`. -/
def kwLookup (kwargs : Kwargs) (key : String) : Option JVal :=
  match kwargs with
  | [] => none
  | (k, v) :: rest => if k = key then some v else kwLookup rest key

/-- `ToolStatus` from `src/tools/base.py`. -/
inductive ToolStatus where
  | SUCCESS
  | FAILURE
  | PARTIAL
  | TIMEOUT
deriving DecidableEq

/-- `ToolResult` from `src/tools/base.py`.  Timestamps and durations are
rationals (wall-clock values supplied by the environment). -/
structure ToolResult where
  success : Bool
  data : List (String × JVal)
  message : String
  timestamp : ℚ
  execution_time_ms : ℚ
  status : ToolStatus
  tool_name : String
  confidence_score : Option ℚ := none
  additional_context : Option (List (String × JVal)) := none

/-- The declared part of a `BaseTool` subclass: its name, category and
parameter lists.  (Description strings are omitted: no claim inspects them.
The tool's `execute` behaviour is passed to `safe_execute` separately, since
in Python it is the subclass method.) -/
structure Tool where
  name : String
  category : String := "general"
  required_parameters : List String := []
  optional_parameters : List String := []
deriving DecidableEq

/-- The missing-parameter scan inside `BaseTool.validate_parameters`:
`param not in kwargs or kwargs[param] is None`. -/
def missingParams (t : Tool) (kwargs : Kwargs) : List String :=
  t.required_parameters.filter fun p =>
    match kwLookup kwargs p with
    | none => true
    | some JVal.null => true
    | some _ => false

/-- `BaseTool.validate_parameters`: returns `(is_valid, error_message)`. -/
def validate_parameters (t : Tool) (kwargs : Kwargs) : Bool × String :=
  let missing := missingParams t kwargs
  if missing = [] then (true, "")
  else (false, "Missing required parameters: " ++ String.intercalate ", " missing)

/-- The outcome of a tool's own `execute`: either a `ToolResult` or a raised
exception carrying `(str(e), type(e).__name__)`. -/
def ExecBehaviour := Kwargs → Except (String × String) ToolResult

/-- `BaseTool.safe_execute`.  `now` models `datetime.now()` at entry and
`elapsed` the measured wall-clock duration in milliseconds. -/
def safe_execute (t : Tool) (exec : ExecBehaviour) (now elapsed : ℚ)
    (kwargs : Kwargs) : ToolResult :=
  let v := validate_parameters t kwargs
  if v.1 then
    match exec kwargs with
    | Except.ok r => { r with execution_time_ms := elapsed }
    | Except.error e =>
        { success := false
          data := [("error", JVal.str e.1), ("error_type", JVal.str e.2)]
          message := "Tool execution failed: " ++ e.1
          timestamp := now
          execution_time_ms := elapsed
          status := ToolStatus.FAILURE
          tool_name := t.name }
  else
    { success := false
      data := []
      message := "Parameter validation failed: " ++ v.2
      timestamp := now
      execution_time_ms := 0
      status := ToolStatus.FAILURE
      tool_name := t.name }

/-! ## Tool registry (`src/tools/registry.py`) -/

/-- Python dict update `d[k] = v`: replace the value in place when the key is
present (insertion order preserved), append otherwise. -/
def dictSet (d : List (String × Tool)) (k : String) (v : Tool) :
    List (String × Tool) :=
  match d with
  | [] => [(k, v)]
  | (k2, v2) :: rest =>
      if k2 = k then (k2, v) :: rest else (k2, v2) :: dictSet rest k v

/-- Python dict lookup `d.get(k)`. -/
def dictGet (d : List (String × Tool)) (k : String) : Option Tool :=
  match d with
  | [] => none
  | (k2, v2) :: rest => if k2 = k then some v2 else dictGet rest k

/-- `ToolRegistry`: the name-keyed catalog.  (`_tool_classes`, a parallel map
to Python class objects, has no counterpart in the embedding; no claim
inspects it.) -/
structure ToolRegistry where
  _tools : List (String × Tool)

/-- `ToolRegistry.get_tool`. -/
def get_tool (reg : ToolRegistry) (tool_name : String) : Option Tool :=
  dictGet reg._tools tool_name

/-- `ToolRegistry.register_custom_tool`: `self._tools[tool.name] = tool`. -/
def register_custom_tool (reg : ToolRegistry) (tool : Tool) : ToolRegistry :=
  ⟨dictSet reg._tools tool.name tool⟩

/-- The names registered by `ToolRegistry._initialize_tools`, in insertion
order (each entry's `name` property from `src/tools/logistics.py`). -/
def registeredToolNames : List String :=
  ["check_traffic", "get_merchant_status", "notify_customer",
   "calculate_alternative_route", "contact_recipient", "find_nearby_locker",
   "initiate_mediation_flow", "analyze_evidence"]

/-! ## Reasoning ledger (`src/agent/reasoning.py`) -/

/-- `ReasoningStepType`. -/
inductive ReasoningStepType where
  | ANALYSIS
  | PLANNING
  | TOOL_SELECTION
  | EXECUTION
  | SYNTHESIS
  | VERIFICATION
  | DECISION
deriving DecidableEq

/-- `ReasoningStepType.value` (the Python enum's string payload). -/
def ReasoningStepType.value : ReasoningStepType → String
  | ANALYSIS => "analysis"
  | PLANNING => "planning"
  | TOOL_SELECTION => "tool_selection"
  | EXECUTION => "execution"
  | SYNTHESIS => "synthesis"
  | VERIFICATION => "verification"
  | DECISION => "decision"

/-- `ReasoningStep` from `src/agent/reasoning.py`. -/
structure ReasoningStep where
  step_number : Nat
  step_type : ReasoningStepType
  reasoning : String
  timestamp : ℚ
  context : List (String × JVal)
  confidence : ℚ
  alternatives_considered : List String
  decision_factors : List String

/-- `ChainOfThoughtReasoner`'s mutable state. -/
structure Reasoner where
  reasoning_steps : List ReasoningStep
  current_step : Nat
  reasoning_session_id : String

/-- A fresh reasoner, as built by `ChainOfThoughtReasoner.__init__` (the
session id is derived from the wall clock, so it is a parameter here). -/
def Reasoner.init (session_id : String) : Reasoner :=
  ⟨[], 0, session_id⟩

/-- `ChainOfThoughtReasoner.add_reasoning_step`: increment the counter and
append a step numbered with it.  `ts` models `datetime.now()`; the Python
defaults (`context=None → {}` etc.) are resolved by each caller. -/
def add_reasoning_step (r : Reasoner) (step_type : ReasoningStepType)
    (reasoning : String) (ts : ℚ) (context : List (String × JVal))
    (confidence : ℚ) (alternatives_considered decision_factors : List String) :
    Reasoner :=
  let n := r.current_step + 1
  { r with
    current_step := n
    reasoning_steps := r.reasoning_steps ++
      [⟨n, step_type, reasoning, ts, context, confidence,
        alternatives_considered, decision_factors⟩] }

/-- `ChainOfThoughtReasoner.clear_reasoning`: drop all steps, reset the
counter, and derive a new session id from the wall clock (a parameter). -/
def clear_reasoning (_r : Reasoner) (new_session_id : String) : Reasoner :=
  ⟨[], 0, new_session_id⟩

/-- One operation against the ledger: an `add_reasoning_step` call (all the
convenience recorders in `reasoning.py` funnel into it) or a
`clear_reasoning` call. -/
inductive LedgerOp where
  | add (step_type : ReasoningStepType) (reasoning : String) (ts : ℚ)
        (context : List (String × JVal)) (confidence : ℚ)
        (alternatives_considered decision_factors : List String)
  | clear (new_session_id : String)

/-- Apply one ledger operation. -/
def applyLedgerOp (r : Reasoner) : LedgerOp → Reasoner
  | LedgerOp.add ty reasoning ts ctx conf alts factors =>
      add_reasoning_step r ty reasoning ts ctx conf alts factors
  | LedgerOp.clear sid => clear_reasoning r sid

/-- Apply a sequence of ledger operations in order. -/
def applyLedgerOps (r : Reasoner) (ops : List LedgerOp) : Reasoner :=
  ops.foldl applyLedgerOp r

/-- Python 3 `round(x, 2)` (round-half-to-even on the scaled value). -/
def roundHalfEven (q : ℚ) : ℤ :=
  let f := ⌊q⌋
  let r := q - f
  if r < 1/2 then f
  else if 1/2 < r then f + 1
  else if f % 2 = 0 then f else f + 1

/-- `round(avg_confidence, 2)`. -/
def round2 (q : ℚ) : ℚ := (roundHalfEven (q * 100) : ℚ) / 100

/-- Count occurrences keyed by string, preserving first-seen order: the
`step_types[step_type] = step_types.get(step_type, 0) + 1` accumulation. -/
def bumpCount (m : List (String × Nat)) (k : String) : List (String × Nat) :=
  match m with
  | [] => [(k, 1)]
  | (k2, v) :: rest =>
      if k2 = k then (k2, v + 1) :: rest else (k2, v) :: bumpCount rest k

/-- The summary dict built by `ChainOfThoughtReasoner.get_reasoning_summary`. -/
structure ReasoningSummary where
  session_id : String
  total_steps : Nat
  step_types : List (String × Nat)
  average_confidence : ℚ
  reasoning_duration : ℚ
  reasoning_quality : String

/-- `ChainOfThoughtReasoner.get_reasoning_summary`. -/
def get_reasoning_summary (r : Reasoner) : ReasoningSummary :=
  let step_types :=
    r.reasoning_steps.foldl (fun m s => bumpCount m s.step_type.value) []
  let total_confidence := (r.reasoning_steps.map (·.confidence)).sum
  let avg_confidence :=
    if r.reasoning_steps.length = 0 then 0
    else total_confidence / r.reasoning_steps.length
  { session_id := r.reasoning_session_id
    total_steps := r.reasoning_steps.length
    step_types := step_types
    average_confidence := round2 avg_confidence
    reasoning_duration :=
      if 1 < r.reasoning_steps.length then
        (r.reasoning_steps.getLast?.elim 0 (·.timestamp)) -
          (r.reasoning_steps.head?.elim 0 (·.timestamp))
      else 0
    reasoning_quality :=
      if 8/10 < avg_confidence then "high"
      else if 6/10 < avg_confidence then "medium" else "low" }

/-! ## Coordinator (`src/agent/coordinator.py`) -/

/-- Does `w` start the character list `s`?  (Helper for Python's substring
test.) -/
def startsWithChars : List Char → List Char → Bool
  | [], _ => true
  | _ :: _, [] => false
  | a :: as, b :: bs => a == b && startsWithChars as bs

/-- Does `w` occur as a contiguous run inside `s`? -/
def containsSubChars (w : List Char) : List Char → Bool
  | [] => startsWithChars w []
  | s :: rest => startsWithChars w (s :: rest) || containsSubChars w rest

/-- Python's `w in s` substring test. -/
def containsSub (s w : String) : Bool :=
  containsSubChars w.toList s.toList

/-- Python's `str.lower()`: per-character lowercasing (the scenario keywords
are ASCII, where this coincides with Python's casemapping). -/
def pyLower (s : String) : String :=
  String.mk (s.data.map Char.toLower)

/-- `re.search` over a pattern matcher that is attempted at each suffix,
leftmost match first (the matchers below need no backtracking across
positions, so this is faithful to Python's scan). -/
def reSearch {α : Type} (m : List Char → Option α) : List Char → Option α
  | [] => m []
  | c :: rest =>
      match m (c :: rest) with
      | some r => some r
      | none => reSearch m rest

/-- Value of a run of decimal digits. -/
def digitsToNat (ds : List Char) : Nat :=
  ds.foldl (fun a c => 10 * a + (c.toNat - 48)) 0

/-- Match the pattern `(\d+)%` at the start of the list: a nonempty maximal
digit run immediately followed by `%`; returns the digit group.  (Backtracking
inside the run cannot help, because every character of the run is a digit and
hence not `%`.) -/
def percentAt (l : List Char) : Option (List Char) :=
  let run := l.takeWhile Char.isDigit
  if run = [] then none
  else
    match l.dropWhile Char.isDigit with
    | '%' :: _ => some run
    | _ => none

/-- Python's `\s` class (ASCII range; the claims use ASCII text only). -/
def isPySpace (c : Char) : Bool :=
  c == ' ' || c == '\t' || c == '\n' || c == '\r' ||
    c == Char.ofNat 11 || c == Char.ofNat 12

/-- Match `confidence[:\s]+([0-9.]+)` (IGNORECASE) at the start of the list:
the literal `confidence`, one or more colon/whitespace characters, then the
greedy nonempty group of digits and dots. -/
def confDecimalAt (l : List Char) : Option (List Char) :=
  if (l.take 10).map Char.toLower = "confidence".toList then
    let after := l.drop 10
    if after.takeWhile (fun c => c == ':' || isPySpace c) = [] then none
    else
      let grp := (after.dropWhile (fun c => c == ':' || isPySpace c)).takeWhile
        (fun c => c.isDigit || c == '.')
      if grp = [] then none else some grp
  else none

/-- Python `float(s)` on a string drawn from `[0-9.]+`: digits with at most
one dot, not reduced to a single dot. -/
def parseFloatGroup (s : List Char) : Option ℚ :=
  if s.count '.' = 0 then some (digitsToNat s)
  else if s.count '.' = 1 then
    let ip := s.takeWhile (· ≠ '.')
    let fp := (s.dropWhile (· ≠ '.')).tail
    if ip = [] ∧ fp = [] then none
    else some ((digitsToNat ip : ℚ) + (digitsToNat fp : ℚ) / 10 ^ fp.length)
  else none

/-- `SynapseCoordinator._extract_confidence_from_response`. -/
def extract_confidence (response_content : String) : ℚ :=
  match reSearch percentAt response_content.toList with
  | some grp => (digitsToNat grp : ℚ) / 100
  | none =>
      match reSearch confDecimalAt response_content.toList with
      | some grp =>
          match parseFloatGroup grp with
          | some q => min 1 q
          | none => 8/10
      | none => 8/10

/-- A tool-call request as carried on an `AIMessage` (`name`, `args`, `id`). -/
structure ToolCall where
  name : String
  args : Kwargs
  id : String

/-- The inner `add_call` of `_create_forced_tool_calls`: append only when the
name is registered, with id `forced_{name}_{len(calls)+1}`. -/
def forcedAddCall (tools : List String) (calls : List ToolCall) (name : String)
    (args : Kwargs) : List ToolCall :=
  if tools.contains name then
    calls ++ [⟨name, args, "forced_" ++ name ++ "_" ++ toString (calls.length + 1)⟩]
  else calls

/-- The traffic keyword test of `_create_forced_tool_calls`
(`any(w in s for w in [...])` over the lowercased scenario). -/
def trafficTrigger (scenario : String) : Bool :=
  ["traffic", "congestion", "road", "route", "accident", "obstruction",
   "delay"].any fun w => containsSub (pyLower scenario) w

/-- The merchant keyword test of `_create_forced_tool_calls`. -/
def merchantTrigger (scenario : String) : Bool :=
  ["restaurant", "merchant", "kitchen", "prep", "order"].any fun w =>
    containsSub (pyLower scenario) w

/-- The customer-communication keyword test of `_create_forced_tool_calls`. -/
def customerTrigger (scenario : String) : Bool :=
  ["customer", "recipient", "address", "contact", "notify"].any fun w =>
    containsSub (pyLower scenario) w

/-- `SynapseCoordinator._create_forced_tool_calls`.  `tools` is the key list
of `self.tools`; `now_hm` is the wall clock rendered as `%H:%M`. -/
def create_forced_tool_calls (tools : List String) (now_hm : String)
    (scenario : String) : List ToolCall :=
  let calls : List ToolCall := []
  let calls :=
    if trafficTrigger scenario then
      forcedAddCall tools
        (forcedAddCall tools calls "check_traffic"
          [("origin", JVal.str "Current Location"),
           ("destination", JVal.str "Delivery Address"),
           ("current_time", JVal.str now_hm)])
        "calculate_alternative_route"
        [("origin", JVal.str "Current Location"),
         ("destination", JVal.str "Delivery Address"),
         ("disruption_type", JVal.str "traffic_obstruction")]
    else calls
  let calls :=
    if merchantTrigger scenario then
      forcedAddCall tools calls "get_merchant_status"
        [("merchant_id", JVal.str "MERCHANT_001")]
    else calls
  let calls :=
    if customerTrigger scenario then
      forcedAddCall tools
        (forcedAddCall tools calls "notify_customer"
          [("customer_id", JVal.str "CUSTOMER_001"),
           ("message_type", JVal.str "delay_notification"),
           ("estimated_delay", JVal.num 15)])
        "contact_recipient"
        [("recipient_id", JVal.str "RECIPIENT_001"),
         ("contact_method", JVal.str "chat"),
         ("urgency_level", JVal.str "high")]
    else calls
  calls.take 3

/-- Python `repr` of a list of strings, as interpolated by
`record_tool_execution` for `list(parameters.keys())`. -/
def pyStrList (keys : List String) : String :=
  "[" ++ String.intercalate ", " (keys.map fun k => "\x27" ++ k ++ "\x27") ++ "]"

/-- An entry of `state["tool_calls_made"]`. -/
structure ToolCallRecord where
  tool_name : String
  args : Kwargs
  tool_call_id : String
  timestamp : ℚ

/-- An entry of `state["gathered_data"]`. -/
structure GatheredDataEntry where
  tool_name : String
  result : JVal

/-- `ChainOfThoughtReasoner.record_tool_execution`, specialised to how
`_after_tools_node` calls it: `result` is the parsed tool output
(`output_parsed`), a plain value or `None`, which never has a `success`
attribute, so `getattr(result, "success", True)` is always `True`.
The `result_summary` context entry (`str(result)[:200]`, a Python `repr`
rendering) is not modelled; no claim inspects the context map. -/
def record_tool_execution (r : Reasoner) (tool_name : String)
    (parameters : Kwargs) (result : Option JVal) (ts : ℚ) : Reasoner :=
  let success := true
  add_reasoning_step r ReasoningStepType.EXECUTION
    ("Executed tool \x27" ++ tool_name ++ "\x27 with parameters " ++
      pyStrList (parameters.map Prod.fst) ++ ". Result: " ++
      (if success then "Success" else "Failed") ++
      ". Gathering information for next decision.")
    ts
    [("tool_name", JVal.str tool_name),
     ("success", JVal.bool success),
     ("has_result", JVal.bool result.isSome)]
    (if success then 9/10 else 1/2) [] []

/-- The per-call parsing inside `_after_tools_node`: no matching
`ToolMessage` leaves `output_parsed = None`; otherwise `json.loads` is
attempted, falling back to `{"raw": content}` on failure.  `parse` is the
abstract `json.loads`. -/
def parse_tool_output (parse : String → Option JVal) (tool_msg : Option String) :
    Option JVal :=
  match tool_msg with
  | none => none
  | some content =>
      match parse content with
      | some v => some v
      | none => some (JVal.obj [("raw", JVal.str content)])

/-- The gathered-data entry `_after_tools_node` appends for one call, if any
(`if output_parsed is not None`). -/
def callGatheredEntry (parse : String → Option JVal) (call : ToolCall)
    (tool_msg : Option String) : Option GatheredDataEntry :=
  (parse_tool_output parse tool_msg).map fun v => ⟨call.name, v⟩

/-- Engine phases: the LangGraph nodes `call_model` (deciding), the
post-`ToolNode` bookkeeping node `after_tools`, `synthesis`, `verification`,
and `END`. -/
inductive Phase where
  | deciding
  | afterTools
  | synthesis
  | verification
  | done
deriving DecidableEq

/-- The engine-relevant fields of `AgentState` (messages, plan and confidence
are carried by the phases that no claim quantifies over). -/
structure EState where
  scenario : String
  phase : Phase
  current_iteration : Nat
  max_iterations : Nat
  tool_calls_made : List ToolCallRecord
  gathered_data : List GatheredDataEntry

/-- The initial state built by `resolve_scenario`. -/
def initState (scenario : String) (max_iterations : Nat) : EState :=
  { scenario := scenario
    phase := Phase.deciding
    current_iteration := 0
    max_iterations := max_iterations
    tool_calls_made := []
    gathered_data := [] }

/-- Bookkeeping of `_after_tools_node` over one dispatched call, including
the ledger side effect (`now` stamps the `ToolCallRecord`, `ts` the
reasoning step). -/
def process_call (parse : String → Option JVal) (now ts : ℚ) (call : ToolCall)
    (tool_msg : Option String) (s : EState) (r : Reasoner) :
    EState × Reasoner :=
  let output_parsed := parse_tool_output parse tool_msg
  ({ s with
     tool_calls_made :=
       s.tool_calls_made ++ [⟨call.name, call.args, call.id, now⟩]
     gathered_data :=
       s.gathered_data ++
         (output_parsed.map fun v => GatheredDataEntry.mk call.name v).toList },
   record_tool_execution r call.name call.args output_parsed ts)

/-- State-only bookkeeping of `_after_tools_node` over the whole call list of
the triggering `AIMessage` (each call paired with the content of its matching
`ToolMessage`, if one exists). -/
def bookkeepCalls (parse : String → Option JVal) (now : ℚ)
    (outcomes : List (ToolCall × Option String)) (s : EState) : EState :=
  { s with
    tool_calls_made := s.tool_calls_made ++
      outcomes.map fun o => ⟨o.1.name, o.1.args, o.1.id, now⟩
    gathered_data := s.gathered_data ++
      outcomes.filterMap fun o => callGatheredEntry parse o.1 o.2 }

/-- Number of distinct tool names among the gathered data
(`len({entry.get("tool_name") for entry in state["gathered_data"]})`). -/
def uniqueToolCount (gathered : List GatheredDataEntry) : Nat :=
  (gathered.map (·.tool_name)).dedup.length

/-- `SynapseCoordinator._should_continue_reasoning`. -/
def should_continue_reasoning (s : EState) : String :=
  if s.max_iterations ≤ s.current_iteration then "synthesize"
  else if 3 ≤ uniqueToolCount s.gathered_data then "synthesize"
  else "continue"

/-- One transition of the orchestration workflow, with `json.loads` abstract
as `parse` and every oracle/tool interaction a nondeterministic choice:

* `oracle_tools`: in `call_model` the LLM requests tool calls; `ToolNode`
  dispatches them and `_after_tools_node` does the bookkeeping and increments
  the iteration counter.
* `forced_tools`: iteration 0, the LLM requests nothing, and
  `_create_forced_tool_calls` yields a nonempty list, which is dispatched the
  same way.
* `direct_answer_first` / `direct_answer_later`: no tool calls survive
  `call_model`, so `_has_tool_calls` routes to synthesis.
* `model_retry`: `_has_tool_calls` finds no `AIMessage` at all and loops back
  to `call_model`.
* `continue_reasoning` / `go_synthesize`: the verdict of
  `_should_continue_reasoning` after bookkeeping.
* `synthesis_done` / `verification_done`: the unconditional edges
  `synthesis → verification → END`. -/
inductive Step (parse : String → Option JVal) : EState → EState → Prop where
  | oracle_tools (s : EState) (now : ℚ)
      (outcomes : List (ToolCall × Option String))
      (hphase : s.phase = Phase.deciding) (hne : outcomes ≠ []) :
      Step parse s
        { bookkeepCalls parse now outcomes s with
          phase := Phase.afterTools
          current_iteration := s.current_iteration + 1 }
  | forced_tools (s : EState) (now_hm : String) (now : ℚ)
      (outcomes : List (ToolCall × Option String))
      (hphase : s.phase = Phase.deciding)
      (hzero : s.current_iteration = 0)
      (hforced : outcomes.map Prod.fst =
        create_forced_tool_calls registeredToolNames now_hm s.scenario)
      (hne : outcomes ≠ []) :
      Step parse s
        { bookkeepCalls parse now outcomes s with
          phase := Phase.afterTools
          current_iteration := s.current_iteration + 1 }
  | direct_answer_first (s : EState) (now_hm : String)
      (hphase : s.phase = Phase.deciding)
      (hzero : s.current_iteration = 0)
      (hforced : create_forced_tool_calls registeredToolNames now_hm
        s.scenario = []) :
      Step parse s { s with phase := Phase.synthesis }
  | direct_answer_later (s : EState)
      (hphase : s.phase = Phase.deciding)
      (hnz : s.current_iteration ≠ 0) :
      Step parse s { s with phase := Phase.synthesis }
  | model_retry (s : EState) (hphase : s.phase = Phase.deciding) :
      Step parse s s
  | continue_reasoning (s : EState)
      (hphase : s.phase = Phase.afterTools)
      (hverdict : should_continue_reasoning s = "continue") :
      Step parse s { s with phase := Phase.deciding }
  | go_synthesize (s : EState)
      (hphase : s.phase = Phase.afterTools)
      (hverdict : should_continue_reasoning s = "synthesize") :
      Step parse s { s with phase := Phase.synthesis }
  | synthesis_done (s : EState) (hphase : s.phase = Phase.synthesis) :
      Step parse s { s with phase := Phase.verification }
  | verification_done (s : EState) (hphase : s.phase = Phase.verification) :
      Step parse s { s with phase := Phase.done }

/-- States reachable by the workflow from a given state. -/
def Reaches (parse : String → Option JVal) (s t : EState) : Prop :=
  Relation.ReflTransGen (Step parse) s t

/-- The fields of the final workflow state that `resolve_scenario` reads on
the non-exceptional path. -/
structure FinalState where
  status : String
  tool_calls_made : List ToolCallRecord
  solution_plan : Option (List (String × JVal))
  current_iteration : Nat
  confidence_score : ℚ
  reasoning_steps_len : Nat

/-- `ResolutionResult` from `src/agent/coordinator.py`. -/
structure ResolutionResult where
  success : Bool
  scenario : String
  reasoning_steps : List String
  tools_used : List String
  solution_plan : List (String × JVal)
  metrics : List (String × JVal)
  confidence_score : ℚ
  execution_time_seconds : ℚ

/-- `SynapseCoordinator.resolve_scenario`, after the workflow has either
produced a final state or raised (`outcome`): the `try` arm builds the
success result from the final state, the `except` arm catches *any* fault
and builds the fixed error result — nothing propagates.  `formatted`
models `self.reasoner.get_formatted_reasoning()`, `reasoner_steps_len` the
ledger length at the fault, `elapsed` the wall-clock duration. -/
def resolve_scenario (scenario : String)
    (outcome : Except String FinalState) (formatted : List String)
    (reasoner_steps_len : Nat) (elapsed : ℚ) : ResolutionResult :=
  match outcome with
  | Except.ok fs =>
      { success := fs.status == "completed"
        scenario := scenario
        reasoning_steps := formatted
        tools_used := fs.tool_calls_made.map (·.tool_name)
        solution_plan := fs.solution_plan.getD []
        metrics :=
          [("total_reasoning_steps", JVal.num fs.reasoning_steps_len),
           ("tools_called", JVal.num fs.tool_calls_made.length),
           ("resolution_time_seconds", JVal.num elapsed),
           ("iterations", JVal.num fs.current_iteration),
           ("confidence_score", JVal.num fs.confidence_score)]
        confidence_score := fs.confidence_score
        execution_time_seconds := elapsed }
  | Except.error e =>
      { success := false
        scenario := scenario
        reasoning_steps := ["Error occurred: " ++ e]
        tools_used := []
        solution_plan := [("error", JVal.str e)]
        metrics :=
          [("total_reasoning_steps", JVal.num reasoner_steps_len),
           ("tools_called", JVal.num 0),
           ("resolution_time_seconds", JVal.num elapsed),
           ("iterations", JVal.num 0),
           ("confidence_score", JVal.num 0)]
        confidence_score := 0
        execution_time_seconds := elapsed }

end Synapse

namespace Synapse

/-- C1: For every tool and every argument map in which some required
parameter is absent or bound to null, `safe_execute` returns a `ToolResult`
with `success = false`, `status = FAILURE`, a message enumerating the missing
parameter names, and `execution_time_ms = 0`; the result is independent of
the tool's `execute` behaviour, so `execute` is never consulted. -/
theorem C1_safe_execute_missing_params (t : Tool) (exec : ExecBehaviour)
    (now elapsed : ℚ) (kwargs : Kwargs)
    (h : missingParams t kwargs ≠ []) :
    (safe_execute t exec now elapsed kwargs).success = false ∧
    (safe_execute t exec now elapsed kwargs).status = ToolStatus.FAILURE ∧
    (safe_execute t exec now elapsed kwargs).message =
      "Parameter validation failed: Missing required parameters: " ++
        String.intercalate ", " (missingParams t kwargs) ∧
    (safe_execute t exec now elapsed kwargs).execution_time_ms = 0 ∧
    ∀ exec2 : ExecBehaviour,
      safe_execute t exec2 now elapsed kwargs =
        safe_execute t exec now elapsed kwargs := by
  have hval : validate_parameters t kwargs =
      (false, "Missing required parameters: " ++
        String.intercalate ", " (missingParams t kwargs)) := by
    unfold validate_parameters
    simp [h]
  refine ⟨?_, ?_, ?_, ?_, ?_⟩ <;>
    simp [safe_execute, hval, ← String.append_assoc]

/-- Witness for C1: a spy-style tool requiring `origin` and `destination`,
invoked with only `origin`: validation fails on `destination`. -/
theorem C1_witness :
    missingParams { name := "check_traffic",
                    required_parameters := ["origin", "destination"] }
        [("origin", JVal.str "A")] ≠ [] ∧
    (safe_execute { name := "check_traffic",
                    required_parameters := ["origin", "destination"] }
        (fun _ => Except.ok { success := true, data := [], message := "spy ran",
                              timestamp := 0, execution_time_ms := 7,
                              status := ToolStatus.SUCCESS,
                              tool_name := "check_traffic" })
        0 7 [("origin", JVal.str "A")]).success = false := by
  refine ⟨by decide, ?_⟩
  exact (C1_safe_execute_missing_params _ _ 0 7 _ (by decide)).1

/-- Updating one key of a name-keyed dict leaves lookups of other keys
unchanged. -/
theorem dictGet_dictSet_ne (d : List (String × Tool)) (k name : String)
    (v : Tool) (h : name ≠ k) :
    dictGet (dictSet d k v) name = dictGet d name := by
  induction d with
  | nil =>
      simp only [dictSet, dictGet]
      rw [if_neg (fun hh => h hh.symm)]
  | cons hd tl ih =>
      obtain ⟨k2, v2⟩ := hd
      by_cases hk : k2 = k
      · subst hk
        simp only [dictSet, if_pos rfl, dictGet]
        rw [if_neg (fun hkn => h hkn.symm), if_neg (fun hkn => h hkn.symm)]
      · simp only [dictSet, if_neg hk, dictGet]
        by_cases hn : k2 = name
        · simp [hn]
        · simp [hn, ih]

/-- C9: Registering a tool at runtime via `register_custom_tool` leaves every
other entry of the registry unchanged: looking up any name different from the
new tool's name returns exactly the tool instance it returned before. -/
theorem C9_register_custom_tool_frame (reg : ToolRegistry) (t : Tool)
    (name : String) (h : name ≠ t.name) :
    get_tool (register_custom_tool reg t) name = get_tool reg name := by
  unfold get_tool register_custom_tool
  exact dictGet_dictSet_ne reg._tools t.name name t h

/-- Witness for C9: registering a custom tool does not disturb the previously
registered `check_traffic` entry. -/
theorem C9_witness :
    "check_traffic" ≠ "my_tool" ∧
    get_tool
      (register_custom_tool
        ⟨[("check_traffic",
           { name := "check_traffic",
             required_parameters := ["origin", "destination"] })]⟩
        { name := "my_tool" })
      "check_traffic" =
    get_tool
      ⟨[("check_traffic",
         { name := "check_traffic",
           required_parameters := ["origin", "destination"] })]⟩
      "check_traffic" := by
  refine ⟨by decide, ?_⟩
  exact C9_register_custom_tool_frame _ { name := "my_tool" } _ (by decide)

/-- The two components of the ledger invariant are preserved by every ledger
operation. -/
theorem ledger_op_preserves_numbering (r : Reasoner) (op : LedgerOp)
    (h1 : r.reasoning_steps.map (·.step_number) =
      List.range' 1 r.reasoning_steps.length)
    (h2 : r.current_step = r.reasoning_steps.length) :
    (applyLedgerOp r op).reasoning_steps.map (·.step_number) =
      List.range' 1 (applyLedgerOp r op).reasoning_steps.length ∧
    (applyLedgerOp r op).current_step =
      (applyLedgerOp r op).reasoning_steps.length := by
  cases op with
  | clear sid => simp [applyLedgerOp, clear_reasoning]
  | add ty reasoning ts ctx conf alts factors =>
      constructor
      · simp only [applyLedgerOp, add_reasoning_step, List.map_append,
          List.length_append, List.map_cons, List.map_nil, List.length_cons,
          List.length_nil, h1, h2]
        have hr : List.range' 1 (r.reasoning_steps.length + 1) =
            List.range' 1 r.reasoning_steps.length ++
              [1 + 1 * r.reasoning_steps.length] :=
          List.range'_concat 1 r.reasoning_steps.length
        simpa [Nat.add_comm] using hr.symm
      · simp [applyLedgerOp, add_reasoning_step, h2]

/-- C7: After any sequence of ledger operations on a fresh reasoner, the
stored step numbers form the gapless strictly increasing sequence
`1, 2, …, n` in append order (and the internal counter equals `n`). -/
theorem C7_step_numbers_gapless (sid : String) (ops : List LedgerOp) :
    (applyLedgerOps (Reasoner.init sid) ops).reasoning_steps.map
        (·.step_number) =
      List.range' 1
        (applyLedgerOps (Reasoner.init sid) ops).reasoning_steps.length := by
  suffices h : ∀ (ops : List LedgerOp) (r : Reasoner),
      r.reasoning_steps.map (·.step_number) =
        List.range' 1 r.reasoning_steps.length →
      r.current_step = r.reasoning_steps.length →
      (applyLedgerOps r ops).reasoning_steps.map (·.step_number) =
          List.range' 1 (applyLedgerOps r ops).reasoning_steps.length ∧
        (applyLedgerOps r ops).current_step =
          (applyLedgerOps r ops).reasoning_steps.length by
    exact (h ops (Reasoner.init sid) (by simp [Reasoner.init])
      (by simp [Reasoner.init])).1
  intro ops
  induction ops with
  | nil => intro r h1 h2; exact ⟨h1, h2⟩
  | cons op rest ih =>
      intro r h1 h2
      have hstep := ledger_op_preserves_numbering r op h1 h2
      simpa [applyLedgerOps] using ih (applyLedgerOp r op) hstep.1 hstep.2

/-- C10: `get_reasoning_summary` is total on every ledger state: with zero
steps it reports `average_confidence = 0` and `reasoning_duration = 0`
(no division by zero occurs), and with exactly one step the
`reasoning_duration` is `0`. -/
theorem C10_summary_total (sid sid2 : String) (cs : Nat)
    (step : ReasoningStep) :
    (get_reasoning_summary (Reasoner.init sid)).average_confidence = 0 ∧
    (get_reasoning_summary (Reasoner.init sid)).reasoning_duration = 0 ∧
    (get_reasoning_summary ⟨[step], cs, sid2⟩).reasoning_duration = 0 := by
  refine ⟨?_, ?_, ?_⟩
  · simp [get_reasoning_summary, Reasoner.init, round2, roundHalfEven]
  · simp [get_reasoning_summary, Reasoner.init]
  · simp [get_reasoning_summary]

/-- C8: Whenever the workflow raises (for example the oracle faulting on the
first consultation), `resolve_scenario` catches the fault and returns a
well-formed `ResolutionResult` with `success = false`,
`confidence_score = 0`, and an empty `tools_used` list — the fault never
propagates (the handler is total in the exception). -/
theorem C8_run_failure_result (scenario e : String) (formatted : List String)
    (reasoner_steps_len : Nat) (elapsed : ℚ) :
    (resolve_scenario scenario (Except.error e) formatted reasoner_steps_len
        elapsed).success = false ∧
    (resolve_scenario scenario (Except.error e) formatted reasoner_steps_len
        elapsed).confidence_score = 0 ∧
    (resolve_scenario scenario (Except.error e) formatted reasoner_steps_len
        elapsed).tools_used = [] := by
  exact ⟨rfl, rfl, rfl⟩

/-- Counterexample for C6: confidence extraction is *not* clamped to at most
1.0 in every case — the percentage branch divides by 100 without clamping, so
the response text `"I am 250% confident"` extracts to `5/2 > 1`. -/
theorem C6_counterexample :
    extract_confidence "I am 250% confident" = 5/2 ∧ (1 : ℚ) < 5/2 := by
  constructor
  · have h1 : reSearch percentAt ("I am 250% confident").toList =
        some ['2', '5', '0'] := by decide
    simp only [extract_confidence, h1]
    norm_num [digitsToNat, show ('2' : Char).toNat = 50 from rfl,
      show ('5' : Char).toNat = 53 from rfl,
      show ('0' : Char).toNat = 48 from rfl]
  · norm_num

/-- C6 (amended): confidence extraction first searches for a percentage
pattern and returns that number divided by 100 *without clamping*, otherwise
searches for a labeled decimal pattern and returns that value clamped to at
most 1.0, otherwise returns 0.8.  In particular `"…92% confident…"` yields
0.92, `"confidence: 0.55"` yields 0.55, and text with neither pattern yields
0.8. -/
theorem C6_confidence_extraction :
    extract_confidence "The solution is good. I am 92% confident in it." =
      92/100 ∧
    extract_confidence "confidence: 0.55" = 55/100 ∧
    extract_confidence "The plan looks reasonable overall." = 8/10 ∧
    (∀ (s : String) (grp : List Char),
      reSearch percentAt s.toList = some grp →
      extract_confidence s = (digitsToNat grp : ℚ) / 100) ∧
    (∀ (s : String) (grp : List Char) (q : ℚ),
      reSearch percentAt s.toList = none →
      reSearch confDecimalAt s.toList = some grp →
      parseFloatGroup grp = some q →
      extract_confidence s = min 1 q) ∧
    (∀ s : String,
      reSearch percentAt s.toList = none →
      reSearch confDecimalAt s.toList = none →
      extract_confidence s = 8/10) := by
  refine ⟨by rfl, ?_, by rfl, ?_, ?_, ?_⟩
  · have h1 : reSearch percentAt ("confidence: 0.55").toList = none := by
      decide
    have h2 : reSearch confDecimalAt ("confidence: 0.55").toList =
        some ['0', '.', '5', '5'] := by decide
    have h3 : List.takeWhile (fun x => !decide (x = '.'))
        ['0', '.', '5', '5'] = ['0'] := by decide
    have h4 : List.dropWhile (fun x => !decide (x = '.'))
        ['0', '.', '5', '5'] = ['.', '5', '5'] := by decide
    simp only [extract_confidence, h1, h2, parseFloatGroup,
      show List.count '.' ['0', '.', '5', '5'] = 1 from by decide]
    norm_num [h3, h4, digitsToNat, min_def,
      show ('0' : Char).toNat = 48 from rfl,
      show ('5' : Char).toNat = 53 from rfl]
  · intro s grp hp
    simp only [extract_confidence, hp]
  · intro s grp q hp hd hf
    simp only [extract_confidence, hp, hd, hf]
  · intro s hp hd
    simp only [extract_confidence, hp, hd]

/-- Witness for C6: the default branch at a concrete patternless response. -/
theorem C6_witness : extract_confidence "no numbers here" = 8/10 := by
  exact C6_confidence_extraction.2.2.2.2.2 "no numbers here" (by decide)
    (by decide)

/-- Counterexample for C5: the scenario `"traffic customer order"` contains
both `"traffic"` and `"customer"`, yet the forced calls are
`check_traffic`, `calculate_alternative_route`, `get_merchant_status` — the
merchant keyword `"order"` fills the third slot of the 3-call cap, so *no*
customer-notification call is produced. -/
theorem C5_counterexample :
    containsSub "traffic customer order" "traffic" = true ∧
    containsSub "traffic customer order" "customer" = true ∧
    (create_forced_tool_calls registeredToolNames "12:00"
        "traffic customer order").map (·.name) =
      ["check_traffic", "calculate_alternative_route",
       "get_merchant_status"] ∧
    ((create_forced_tool_calls registeredToolNames "12:00"
        "traffic customer order").map (·.name)).contains
      "notify_customer" = false ∧
    ((create_forced_tool_calls registeredToolNames "12:00"
        "traffic customer order").map (·.name)).contains
      "contact_recipient" = false := by
  refine ⟨rfl, rfl, rfl, rfl, rfl⟩

/-- C5 (amended): for every scenario text containing both `"traffic"` and
`"customer"` (lowercased), the forced fallback produces at most 3 calls and
always at least one traffic-related call (`check_traffic`); a
customer-notification call (`notify_customer`) is guaranteed only when no
merchant keyword (`restaurant`/`merchant`/`kitchen`/`prep`/`order`) also
occurs, since a merchant call can otherwise occupy the last capped slot. -/
theorem C5_forced_tool_calls (scenario now_hm : String)
    (hT : containsSub (pyLower scenario) "traffic" = true)
    (hC : containsSub (pyLower scenario) "customer" = true) :
    (create_forced_tool_calls registeredToolNames now_hm scenario).length ≤
      3 ∧
    ((create_forced_tool_calls registeredToolNames now_hm scenario).map
        (·.name)).contains "check_traffic" = true ∧
    (merchantTrigger scenario = false →
      ((create_forced_tool_calls registeredToolNames now_hm scenario).map
          (·.name)).contains "notify_customer" = true) := by
  have hTT : trafficTrigger scenario = true := by
    simp [trafficTrigger, hT]
  have hCT : customerTrigger scenario = true := by
    simp [customerTrigger, hC]
  cases hM : merchantTrigger scenario with
  | false =>
      refine ⟨?_, ?_, ?_⟩ <;>
        simp +decide [create_forced_tool_calls, hTT, hM, hCT, forcedAddCall,
          registeredToolNames]
  | true =>
      refine ⟨?_, ?_, ?_⟩ <;>
        simp +decide [create_forced_tool_calls, hTT, hM, hCT, forcedAddCall,
          registeredToolNames]

/-- Witness for C5: a traffic-and-customer scenario with no merchant keyword
does get a customer-notification forced call. -/
theorem C5_witness :
    containsSub (pyLower "heavy traffic ahead, tell the customer")
      "traffic" = true ∧
    containsSub (pyLower "heavy traffic ahead, tell the customer")
      "customer" = true ∧
    merchantTrigger "heavy traffic ahead, tell the customer" = false ∧
    ((create_forced_tool_calls registeredToolNames "12:00"
        "heavy traffic ahead, tell the customer").map (·.name)).contains
      "notify_customer" = true := by
  refine ⟨rfl, rfl, rfl, ?_⟩
  exact (C5_forced_tool_calls "heavy traffic ahead, tell the customer"
    "12:00" rfl rfl).2.2 rfl

/-- Counterexample for C4: a tool output that fails to parse
(`parse = json.loads` returns failure on `"not json"`) still appends a
gathered-data entry — the raw-string wrapper `{"raw": content}` is not
`None`, so `_after_tools_node`'s `if output_parsed is not None` check passes.
Only a call with *no matching tool message* skips the entry. -/
theorem C4_counterexample :
    (fun _ : String => (none : Option JVal)) "not json" = none ∧
    (process_call (fun _ => none) 0 0 ⟨"check_traffic", [], "call_1"⟩
        (some "not json") (initState "s" 10)
        (Reasoner.init "sid")).1.gathered_data =
      [⟨"check_traffic", JVal.obj [("raw", JVal.str "not json")]⟩] := by
  exact ⟨rfl, rfl⟩

/-- C4 (amended): for every dispatched tool call, the `ToolCallRecord` and
the EXECUTION reasoning step are always appended; a `GatheredDataEntry` is
appended exactly when a matching tool message exists — carrying the parsed
value on parse success and the raw-string wrapper `{"raw": content}` on
parse failure — and is skipped only when no matching tool message is
found. -/
theorem C4_after_tools_entry_policy (parse : String → Option JVal)
    (now ts : ℚ) (call : ToolCall) (tool_msg : Option String) (s : EState)
    (r : Reasoner) :
    (process_call parse now ts call tool_msg s r).1.tool_calls_made =
      s.tool_calls_made ++ [⟨call.name, call.args, call.id, now⟩] ∧
    (process_call parse now ts call tool_msg s r).2.reasoning_steps.length =
      r.reasoning_steps.length + 1 ∧
    Option.map (·.step_type)
        (process_call parse now ts call tool_msg s r).2.reasoning_steps.getLast? =
      some ReasoningStepType.EXECUTION ∧
    (tool_msg = none →
      (process_call parse now ts call tool_msg s r).1.gathered_data =
        s.gathered_data) ∧
    (∀ (content : String) (v : JVal), tool_msg = some content →
      parse content = some v →
      (process_call parse now ts call tool_msg s r).1.gathered_data =
        s.gathered_data ++ [⟨call.name, v⟩]) ∧
    (∀ content : String, tool_msg = some content → parse content = none →
      (process_call parse now ts call tool_msg s r).1.gathered_data =
        s.gathered_data ++
          [⟨call.name, JVal.obj [("raw", JVal.str content)]⟩]) := by
  refine ⟨rfl, ?_, ?_, ?_, ?_, ?_⟩
  · simp [process_call, record_tool_execution, add_reasoning_step]
  · simp [process_call, record_tool_execution, add_reasoning_step]
  · intro h
    simp [process_call, parse_tool_output, h]
  · intro content v h hp
    simp [process_call, parse_tool_output, h, hp]
  · intro content h hp
    simp [process_call, parse_tool_output, h, hp]

/-- Witness for C4: a call with no matching tool message appends no
gathered-data entry. -/
theorem C4_witness :
    (process_call (fun _ => none) 0 0 ⟨"check_traffic", [], "call_1"⟩ none
        (initState "s" 10) (Reasoner.init "sid")).1.gathered_data =
      (initState "s" 10).gathered_data := by
  exact (C4_after_tools_entry_policy (fun _ => none) 0 0
    ⟨"check_traffic", [], "call_1"⟩ none (initState "s" 10)
    (Reasoner.init "sid")).2.2.2.1 rfl

/-- Every workflow step preserves the iteration bound, together with the
strengthening that a state in the deciding phase is strictly below the
ceiling (the counter is incremented only on the deciding → after-tools
edge, whose source the continuation check already screened). -/
theorem step_preserves_iteration_bound (parse : String → Option JVal)
    {s t : EState} (hstep : Step parse s t)
    (h1 : s.current_iteration ≤ s.max_iterations)
    (h2 : s.phase = Phase.deciding → s.current_iteration < s.max_iterations) :
    t.current_iteration ≤ t.max_iterations ∧
      (t.phase = Phase.deciding → t.current_iteration < t.max_iterations) := by
  cases hstep with
  | oracle_tools now outcomes hphase hne =>
      have hlt := h2 hphase
      constructor
      · simp only [bookkeepCalls]
        omega
      · intro hph
        simp [bookkeepCalls] at hph
  | forced_tools now_hm now outcomes hphase hzero hforced hne =>
      have hlt := h2 hphase
      constructor
      · simp only [bookkeepCalls]
        omega
      · intro hph
        simp [bookkeepCalls] at hph
  | direct_answer_first now_hm hphase hzero hforced =>
      exact ⟨h1, by intro hph; simp at hph⟩
  | direct_answer_later hphase hnz =>
      exact ⟨h1, by intro hph; simp at hph⟩
  | model_retry hphase =>
      exact ⟨h1, h2⟩
  | continue_reasoning hphase hverdict =>
      have hlt : s.current_iteration < s.max_iterations := by
        by_contra hge
        push_neg at hge
        unfold should_continue_reasoning at hverdict
        rw [if_pos hge] at hverdict
        exact absurd hverdict (by decide)
      exact ⟨le_of_lt hlt, fun _ => hlt⟩
  | go_synthesize hphase hverdict =>
      exact ⟨h1, by intro hph; simp at hph⟩
  | synthesis_done hphase =>
      exact ⟨h1, by intro hph; simp at hph⟩
  | verification_done hphase =>
      exact ⟨h1, by intro hph; simp at hph⟩

/-- Counterexample for C2: with `max_iterations = 0` the workflow still
enters `call_model` first and, when the oracle requests a tool, the counter
is incremented to 1 *before* the first ceiling check — so a reachable state
has `current_iteration = 1 > 0 = max_iterations`: the counter can exceed the
ceiling. -/
theorem C2_counterexample :
    Reaches (fun _ => none) (initState "road closed" 0)
      { scenario := "road closed", phase := Phase.afterTools,
        current_iteration := 1, max_iterations := 0,
        tool_calls_made := [⟨"check_traffic", [], "call_1", 0⟩],
        gathered_data :=
          [⟨"check_traffic", JVal.obj [("raw", JVal.str "out")]⟩] } ∧
    ¬ ((1 : Nat) ≤ 0) := by
  constructor
  · refine Relation.ReflTransGen.single ?_
    exact Step.oracle_tools (initState "road closed" 0) 0
      [(⟨"check_traffic", [], "call_1"⟩, some "out")] rfl (by simp)
  · decide

/-- C2 (amended): for every run whose iteration ceiling is at least 1, the
iteration counter never exceeds `max_iterations` in any reachable state; and
in every run, once the counter has reached the ceiling, the continuation
decision after tool bookkeeping is synthesis regardless of tool diversity.
(With a ceiling of 0 the counter can reach 1, see the counterexample.) -/
theorem C2_iteration_ceiling (parse : String → Option JVal)
    (scenario : String) (mx : Nat) (s : EState) (hmax : 1 ≤ mx)
    (hreach : Reaches parse (initState scenario mx) s) :
    s.current_iteration ≤ s.max_iterations ∧
    ∀ u v : EState, u.phase = Phase.afterTools →
      u.max_iterations ≤ u.current_iteration → Step parse u v →
      v.phase = Phase.synthesis := by
  constructor
  · have inv : s.current_iteration ≤ s.max_iterations ∧
        (s.phase = Phase.deciding →
          s.current_iteration < s.max_iterations) := by
      induction hreach with
      | refl =>
          exact ⟨by simp [initState],
            fun _ => by simpa [initState] using hmax⟩
      | tail hsteps hstep ih =>
          exact step_preserves_iteration_bound parse hstep ih.1 ih.2
    exact inv.1
  · intro u v hph hge hstep
    cases hstep with
    | oracle_tools now outcomes hphase hne => simp [hph] at hphase
    | forced_tools now_hm now outcomes hphase hzero hforced hne =>
        simp [hph] at hphase
    | direct_answer_first now_hm hphase hzero hforced =>
        simp [hph] at hphase
    | direct_answer_later hphase hnz => simp [hph] at hphase
    | model_retry hphase => simp [hph] at hphase
    | continue_reasoning hphase hverdict =>
        unfold should_continue_reasoning at hverdict
        rw [if_pos hge] at hverdict
        exact absurd hverdict (by decide)
    | go_synthesize hphase hverdict => rfl
    | synthesis_done hphase => simp [hph] at hphase
    | verification_done hphase => simp [hph] at hphase

/-- Witness for C2: the initial state of a ceiling-1 run satisfies the bound,
and a concrete at-ceiling after-tools state steps to synthesis. -/
theorem C2_witness :
    (initState "x" 1).current_iteration ≤ (initState "x" 1).max_iterations ∧
    ({ (⟨"x", Phase.afterTools, 1, 1, [], []⟩ : EState) with
        phase := Phase.synthesis }).phase = Phase.synthesis := by
  have h := C2_iteration_ceiling (fun _ => none) "x" 1 (initState "x" 1)
    (by decide) Relation.ReflTransGen.refl
  refine ⟨h.1, ?_⟩
  exact h.2 ⟨"x", Phase.afterTools, 1, 1, [], []⟩ _ rfl (by decide)
    (Step.go_synthesize ⟨"x", Phase.afterTools, 1, 1, [], []⟩ rfl (by decide))

/-- C3: at the continuation check after tool bookkeeping, once at least 3
distinct tool names are represented among the gathered data, the next
transition is to synthesis — never back to the deciding phase. -/
theorem C3_tool_diversity_forces_synthesis (parse : String → Option JVal)
    (s t : EState) (hphase : s.phase = Phase.afterTools)
    (hdiv : 3 ≤ uniqueToolCount s.gathered_data)
    (hstep : Step parse s t) :
    t.phase = Phase.synthesis := by
  cases hstep with
  | oracle_tools now outcomes hph hne => simp [hphase] at hph
  | forced_tools now_hm now outcomes hph hzero hforced hne =>
      simp [hphase] at hph
  | direct_answer_first now_hm hph hzero hforced => simp [hphase] at hph
  | direct_answer_later hph hnz => simp [hphase] at hph
  | model_retry hph => simp [hphase] at hph
  | continue_reasoning hph hverdict =>
      unfold should_continue_reasoning at hverdict
      by_cases hge : s.max_iterations ≤ s.current_iteration
      · rw [if_pos hge] at hverdict
        exact absurd hverdict (by decide)
      · rw [if_neg hge, if_pos hdiv] at hverdict
        exact absurd hverdict (by decide)
  | go_synthesize hph hverdict => rfl
  | synthesis_done hph => simp [hphase] at hph
  | verification_done hph => simp [hphase] at hph

/-- Witness for C3: a concrete after-tools state holding data from 3
distinct tools steps to synthesis. -/
theorem C3_witness :
    (⟨"x", Phase.afterTools, 1, 10, [],
      [⟨"check_traffic", JVal.null⟩, ⟨"notify_customer", JVal.null⟩,
       ⟨"get_merchant_status", JVal.null⟩]⟩ : EState).phase =
      Phase.afterTools ∧
    3 ≤ uniqueToolCount
      [GatheredDataEntry.mk "check_traffic" JVal.null,
       GatheredDataEntry.mk "notify_customer" JVal.null,
       GatheredDataEntry.mk "get_merchant_status" JVal.null] ∧
    ({ (⟨"x", Phase.afterTools, 1, 10, [],
        [⟨"check_traffic", JVal.null⟩, ⟨"notify_customer", JVal.null⟩,
         ⟨"get_merchant_status", JVal.null⟩]⟩ : EState) with
        phase := Phase.synthesis }).phase = Phase.synthesis := by
  refine ⟨rfl, by decide, ?_⟩
  exact C3_tool_diversity_forces_synthesis (fun _ => none)
    ⟨"x", Phase.afterTools, 1, 10, [],
      [⟨"check_traffic", JVal.null⟩, ⟨"notify_customer", JVal.null⟩,
       ⟨"get_merchant_status", JVal.null⟩]⟩ _ rfl (by decide)
    (Step.go_synthesize
      ⟨"x", Phase.afterTools, 1, 10, [],
        [⟨"check_traffic", JVal.null⟩, ⟨"notify_customer", JVal.null⟩,
         ⟨"get_merchant_status", JVal.null⟩]⟩ rfl (by decide))

end Synapse
